import Mathlib

/-!
Verification development for the pdf-ai repository.

This file gives a shallow embedding of the retrieval-and-relevance pipeline of
`src/app/api/chat/route.ts` (the `POST` handler) and of the ingestion function
`embedAndStoreDocs` of `src/lib/vectorStore.ts`, and proves properties of the
embedded definitions.

Modelling conventions:
* MongoDB is an external collaborator.  Each query the handler issues is
  reified as a `StoreQuery` value that records the query's shape exactly as the
  code builds it (collection filters, limits, index names, and - crucially -
  whether a `fileId` filter is part of the query).  A `Store` answers queries
  abstractly; `Except Unit` models a thrown driver error.
* Every store round trip and every embedding-service call is appended to a
  trace (`List Event`), so temporal claims ("X happens before Y", "stage S is
  never invoked") become statements about the trace.
* JavaScript floats (similarity scores) are modelled as rationals; the only
  operations the code performs on them are comparisons against the literal 0.6.
* JavaScript string operations are modelled character-wise over `List Char`
  (`s.includes t`, `s.toLowerCase()`, `s.split(' ')`, `s.length`), which agrees
  with JavaScript on the ASCII strings the heuristics use.
* `Array.prototype.sort` is stable (ECMA-262); both comparators in the code are
  induced by total preorders on keys, for which every stable sort computes the
  same list, so a stable insertion sort is a faithful model.
-/

set_option maxRecDepth 20000

/-- JavaScript `hay.includes(needle)` on char lists: auxiliary scanner. -/
def includesAux (needle : List Char) : List Char → Bool
  | [] => needle.isEmpty
  | c :: rest => needle.isPrefixOf (c :: rest) || includesAux needle rest

/-- JavaScript `hay.includes(needle)` (substring test). -/
def strIncludes (hay needle : String) : Bool :=
  includesAux needle.data hay.data

/-- JavaScript `s.toLowerCase()` (ASCII-faithful). -/
def lowerStr (s : String) : String :=
  String.mk (s.data.map Char.toLower)

/-- Auxiliary for `splitSpaces`: accumulates the current word (reversed). -/
def splitSpacesAux (cur : List Char) : List Char → List (List Char)
  | [] => [cur.reverse]
  | c :: rest =>
    if c = ' ' then cur.reverse :: splitSpacesAux [] rest
    else splitSpacesAux (c :: cur) rest

/-- JavaScript `s.split(' ')` (single-space separator, keeps empty pieces). -/
def splitSpaces (s : String) : List String :=
  (splitSpacesAux [] s.data).map String.mk

/-- JavaScript `parts.join(sep)`. -/
def joinWith (sep : String) : List String → String
  | [] => ""
  | [s] => s
  | s :: rest => s ++ sep ++ joinWith sep rest

/-- Stable insertion of `x` into a list ordered by the JavaScript comparator
`cmp` (negative result means "x sorts before"). `x` is placed before the first
element it does not compare strictly after, which preserves the original order
of elements that compare equal. -/
def insertCmp (cmp : α → α → Int) (x : α) : List α → List α
  | [] => [x]
  | y :: ys => if cmp x y ≤ 0 then x :: y :: ys else y :: insertCmp cmp x ys

/-- Stable sort by a JavaScript comparator; models `Array.prototype.sort`
(stable per ECMA-262) for comparators induced by total preorders on keys. -/
def sortCmp (cmp : α → α → Int) : List α → List α
  | [] => []
  | x :: xs => insertCmp cmp x (sortCmp cmp xs)

/-- One stored chunk as the chat route reads it (`MongoDocument` in
`route.ts`): its text, the `fileId` it is partitioned under, and the vector
similarity score attached by `$vectorSearch` (absent for non-vector queries). -/
structure MongoDoc where
  text : String
  fileId : String
  score : Option ℚ := none
deriving DecidableEq, Repr

/-- The shape of each MongoDB query the `POST` handler issues, exactly as the
code builds it.  `vectorSearch` records the index name, query vector,
`numCandidates`, `limit`, and the optional `fileId` equality filter (the
primary pipeline passes `filter: fileId eq pdfId`; the alternative-index
pipelines pass no filter). -/
inductive StoreQuery where
  /-- `collection.countDocuments(fileId: pdfId)` -/
  | countDocs (fileId : String)
  /-- `$vectorSearch` aggregate. -/
  | vectorSearch (index : String) (queryVector : List ℚ)
      (numCandidates limit : Nat) (fileFilter : Option String)
  /-- `collection.findOne(\x7b\x7d)` - the debug probe, no filter at all. -/
  | findOneAny
  /-- `collection.find(fileId).limit(3)` - the relevance-gate sample. -/
  | findSample (fileId : String) (limit : Nat)
  /-- Stage 1 structure query (`contents|index|chapter|...` regexes). -/
  | findStructure (fileId : String) (limit : Nat)
  /-- Stage 1 fallback (`text.length` between 10 and 200). -/
  | findHeading (fileId : String) (limit : Nat)
  /-- Stage 2 overview query (`introduction|abstract|overview|...`). -/
  | findOverview (fileId : String) (limit : Nat)
  /-- Stage 3 keyword query (`$or` of case-insensitive keyword regexes). -/
  | findKeyword (fileId : String) (keywords : List String) (limit : Nat)
  /-- Stage 3 escape-hatch query (keywords and content markers, boilerplate
  excluded). -/
  | findSpecific (fileId : String) (keywords : List String) (limit : Nat)
  /-- `$match fileId` + `$sample size` aggregate (diversity sample). -/
  | sampleAgg (fileId : String) (size : Nat)
deriving DecidableEq, Repr

/-- One traced external interaction of a request. -/
inductive Event where
  | store (q : StoreQuery)
  | embedCall (text : String)
deriving DecidableEq, Repr

/-- The chunk store, abstractly: how many chunks carry a `fileId`, and an
answer for every query.  `Except.error` models a thrown driver error. -/
structure Store where
  count : String → Nat
  query : StoreQuery → Except Unit (List MongoDoc)

/-- A chat message as the route receives it. -/
structure ChatMessage where
  role : String
  content : String
deriving DecidableEq, Repr

/-- The distinguishable outcomes of the `POST` handler.  `answer docs` is any
normal JSON answer; its `sources` list is built from `docs` in order. -/
inductive ChatResponse where
  /-- 400 "No messages provided". -/
  | errNoMessages
  /-- 400 "Question is required". -/
  | errNoQuestion
  /-- 500 "Internal Server Error" (outer catch). -/
  | errInternal
  /-- "I don't have any documents to search through..." -/
  | noDocuments
  /-- "I can only answer questions related to the content of your uploaded
  PDF..." (relevance-gate rejection). -/
  | irrelevant
  /-- "I found the PDF collection but there's no readable content..." -/
  | noContent
  /-- A composed answer whose sources are exactly `docs`. -/
  | answer (docs : List MongoDoc)
deriving DecidableEq, Repr

/-! ## Heuristic predicates of the chat route (`route.ts`) -/

/-- The "document meta" markers of lines 189-202: a question containing any of
these is always allowed through the relevance gate. -/
def generalPdfMarkers : List String :=
  ["pdf", "document", "file", "details about this", "summary", "overview",
   "tell me about", "what is this", "contents", "topics", "chapters",
   "sections"]

/-- `isGeneralPdfQuestion` of lines 189-202 (argument is the lower-cased
question). -/
def isGeneralPdfQuestion (ql : String) : Bool :=
  generalPdfMarkers.any (fun m => strIncludes ql m)

/-- The fixed domain vocabulary `commonTerms` of line 214. -/
def commonTerms : List String :=
  ["photon", "matter", "interaction", "physics", "energy", "quantum",
   "electron", "atom", "radiation", "medical", "helium", "approximation",
   "model"]

/-- `documentTerms` of lines 213-220: the vocabulary terms present in the
lower-cased sample content (insertion order = vocabulary order). -/
def documentTerms (sampleContent : String) : List String :=
  commonTerms.filter (fun t => strIncludes sampleContent t)

/-- `questionTerms` of line 225: question words longer than 3 characters. -/
def questionTerms (ql : String) : List String :=
  (splitSpaces ql).filter (fun w => w.length > 3)

/-- `hasRelevantTerms` of lines 226-230. -/
def hasRelevantTerms (ql sampleContent : String) : Bool :=
  (questionTerms ql).any (fun t =>
    (documentTerms sampleContent).any (fun dt =>
      strIncludes t dt || strIncludes dt t))

/-- Whitespace class of the regex `\s`. -/
def isWsChar (c : Char) : Bool :=
  c = ' ' || c = '\t' || c = '\n' || c = '\r' || c = '\x0b' || c = '\x0c'

/-- Matches `\s*B` at the head of the list: either `B` is a prefix here, or the
head is whitespace and the rest matches. -/
def matchWsThen (b : List Char) : List Char → Bool
  | [] => b.isPrefixOf []
  | c :: rest => b.isPrefixOf (c :: rest) || (isWsChar c && matchWsThen b rest)

/-- Auxiliary for `matchPair`: scans for a position where `A\s*B` matches. -/
def matchPairAux (a b : List Char) : List Char → Bool
  | [] => a.isPrefixOf [] && matchWsThen b []
  | c :: rest =>
    (a.isPrefixOf (c :: rest) && matchWsThen b (List.drop a.length (c :: rest)))
      || matchPairAux a b rest

/-- The regex `A\s*B` (unanchored, as used by `pattern.test`). -/
def matchPair (a b hay : String) : Bool :=
  matchPairAux a.data b.data hay.data

/-- `unrelatedPatterns` of lines 233-245, applied (as in the code) to the
lower-cased question; the `/i` flags are therefore inert. -/
def isObviouslyUnrelated (ql : String) : Bool :=
  (matchPair "window" "11" ql || matchPair "windows" "11" ql) ||
  matchPair "microsoft" "office" ql ||
  (strIncludes ql "adobe" || matchPair "pdf" "reader" ql) ||
  (strIncludes ql "computer" || strIncludes ql "software" || strIncludes ql "app") ||
  (strIncludes ql "weather" || strIncludes ql "climate") ||
  (strIncludes ql "food" || strIncludes ql "recipe" || strIncludes ql "cooking") ||
  (strIncludes ql "sports" || strIncludes ql "football" || strIncludes ql "basketball") ||
  (strIncludes ql "movie" || strIncludes ql "film" || strIncludes ql "entertainment") ||
  (strIncludes ql "music" || strIncludes ql "song" || strIncludes ql "artist") ||
  (strIncludes ql "travel" || strIncludes ql "vacation" || strIncludes ql "hotel") ||
  (strIncludes ql "shopping" || strIncludes ql "purchase" || strIncludes ql "buy")

/-- The rejection decision of line 249:
`isObviouslyUnrelated || (!hasRelevantTerms && questionTerms.length > 0)`. -/
def gateRejects (ql sampleContent : String) : Bool :=
  isObviouslyUnrelated ql ||
    (!hasRelevantTerms ql sampleContent && !(questionTerms ql).isEmpty)

/-- `isListingRequest` of lines 270-276. -/
def isListingRequest (ql : String) : Bool :=
  strIncludes ql "list" &&
    (strIncludes ql "topic" || strIncludes ql "chapter" || strIncludes ql "subject") &&
    !strIncludes ql "explain" && !strIncludes ql "about" &&
    (splitSpaces ql).length < 8

/-- The Stage 2 trigger of line 311: `detail` together with `pdf`, `document`
or `book`. -/
def isDetailRequest (ql : String) : Bool :=
  strIncludes ql "detail" &&
    (strIncludes ql "pdf" || strIncludes ql "document" || strIncludes ql "book")

/-- `stopWords` of line 352. -/
def stopWords : List String :=
  ["can", "you", "tell", "me", "about", "what", "is", "the", "a", "an", "and",
   "or", "but", "for", "with", "this", "that", "explain", "topic"]

/-- `meaningfulKeywords` of lines 353-355: lower-cased words longer than 3
characters that are not stop words. -/
def meaningfulKeywords (ql : String) : List String :=
  (splitSpaces ql).filter (fun w => w.length > 3 && !stopWords.contains w)

/-- Number of keywords the lower-cased text contains (lines 396-397). -/
def kwMatchCount (kws : List String) (text : String) : Nat :=
  (kws.filter (fun k => strIncludes (lowerStr text) k)).length

/-- The secondary sort key of lines 408-410: 1 when the text length lies in
[500, 2000], else 0. -/
def bandScore (text : String) : Nat :=
  if 500 ≤ (lowerStr text).length ∧ (lowerStr text).length ≤ 2000 then 1 else 0

/-- The Stage 3 comparator of lines 392-412: descending distinct-keyword match
count, ties broken by the descending length-band score. -/
def keywordCmp (kws : List String) (a b : MongoDoc) : Int :=
  if kwMatchCount kws b.text ≠ kwMatchCount kws a.text then
    (kwMatchCount kws b.text : Int) - (kwMatchCount kws a.text : Int)
  else
    (bandScore b.text : Int) - (bandScore a.text : Int)

/-- The Stage 3 ranking of lines 392-413: stable sort by `keywordCmp`, keep the
top 8. -/
def rankKeywordDocs (kws : List String) (docs : List MongoDoc) : List MongoDoc :=
  (sortCmp (keywordCmp kws) docs).take 8

/-- The Stage 2 weighted intro score of lines 337-345. -/
def introScore (text : String) : Nat :=
  (if strIncludes (lowerStr text) "introduction" then 3 else 0) +
  (if strIncludes (lowerStr text) "overview" then 2 else 0) +
  (if strIncludes (lowerStr text) "this book" then 2 else 0) +
  (if strIncludes (lowerStr text) "covers" then 1 else 0)

/-- The Stage 2 comparator of lines 333-347 (descending intro score). -/
def introCmp (a b : MongoDoc) : Int :=
  (introScore b.text : Int) - (introScore a.text : Int)

/-- The front-matter filter of lines 377-384 (case-sensitive markers, or text
shorter than 300 characters). -/
def isOverviewPage (d : MongoDoc) : Bool :=
  strIncludes d.text "Oxford Master Series" ||
  strIncludes d.text "course books" ||
  strIncludes d.text "tutorial material" ||
  d.text.length < 300

/-- `docsToSort` of line 389: the non-front-matter chunks when any exist,
otherwise the full candidate set. -/
def pickDocsToSort (allDocs : List MongoDoc) : List MongoDoc :=
  if (allDocs.filter (fun d => !isOverviewPage d)).isEmpty then allDocs
  else allDocs.filter (fun d => !isOverviewPage d)

/-- The escape-hatch trigger of line 418: the top-ranked chunk's text is truthy
and contains the boilerplate marker. -/
def needsSpecificRetry : List MongoDoc → Bool
  | [] => false
  | d :: _ => !(d.text = "") && strIncludes d.text "Oxford Master Series"

/-! ## Stage 0 - vector similarity (lines 85-181) -/

/-- The similarity floor of line 119. -/
def scoreThreshold : ℚ := mkRat 6 10

/-- The score-threshold post-filter of lines 115-128: keep the results whose
score (defaulting to 0) reaches the floor; if none does while the first result
is below the floor, discard the whole set. -/
def applyThreshold (docs : List MongoDoc) : List MongoDoc :=
  match docs.head? with
  | none => docs.filter (fun d => decide (scoreThreshold ≤ d.score.getD 0))
  | some d0 =>
    if (docs.filter (fun d => decide (scoreThreshold ≤ d.score.getD 0))).isEmpty
        && decide (d0.score.getD 0 < scoreThreshold) then []
    else docs.filter (fun d => decide (scoreThreshold ≤ d.score.getD 0))

/-- The fixed alternative index names of line 142. -/
def altIndexes : List String := ["default", "vector_search_index", "embeddings_index"]

/-- The alternative-index retry loop of lines 144-176: each index is tried with
`numCandidates 10, limit 3` and no `fileId` filter; a per-index failure or an
empty answer moves on to the next index; the first non-empty answer wins. -/
def tryAltIndexes (store : Store) (qe : List ℚ) : List String → List MongoDoc × List Event
  | [] => ([], [])
  | idx :: rest =>
    match store.query (.vectorSearch idx qe 10 3 none) with
    | .error _ =>
      ((tryAltIndexes store qe rest).1,
        .store (.vectorSearch idx qe 10 3 none) :: (tryAltIndexes store qe rest).2)
    | .ok l =>
      if l.isEmpty then
        ((tryAltIndexes store qe rest).1,
          .store (.vectorSearch idx qe 10 3 none) :: (tryAltIndexes store qe rest).2)
      else (l, [.store (.vectorSearch idx qe 10 3 none)])

/-- Stage 0 (lines 85-181): run the primary `$vectorSearch` (index
"vector_index", pool 20, limit 5, `fileId` filter).  A non-empty answer goes
through the score threshold; an empty answer triggers the `findOne` debug probe
and the alternative-index retries (whose results bypass the threshold); a
thrown error is caught and leaves the result empty. -/
def stage0 (store : Store) (qe : List ℚ) (pdfId : String) : List MongoDoc × List Event :=
  match store.query (.vectorSearch "vector_index" qe 20 5 (some pdfId)) with
  | .error _ => ([], [.store (.vectorSearch "vector_index" qe 20 5 (some pdfId))])
  | .ok docs =>
    if docs.isEmpty then
      match store.query .findOneAny with
      | .error _ =>
        ([], [.store (.vectorSearch "vector_index" qe 20 5 (some pdfId)),
              .store .findOneAny])
      | .ok _ =>
        ((tryAltIndexes store qe altIndexes).1,
          .store (.vectorSearch "vector_index" qe 20 5 (some pdfId)) ::
            .store .findOneAny :: (tryAltIndexes store qe altIndexes).2)
    else (applyThreshold docs, [.store (.vectorSearch "vector_index" qe 20 5 (some pdfId))])

/-! ## Relevance gate (lines 182-261) -/

/-- The relevance gate (lines 182-261), reached only when Stage 0 produced no
chunks.  Returns whether the question is allowed through, plus the store events
it issued; the error carries the events when the sample `find` throws (which
the code does not catch, so the caller fails the request). -/
def gateAllows (store : Store) (pdfId ql : String) :
    Except (List Event) (Bool × List Event) :=
  if isGeneralPdfQuestion ql then .ok (true, [])
  else
    match store.query (.findSample pdfId 3) with
    | .error _ => .error [.store (.findSample pdfId 3)]
    | .ok sampleDocs =>
      .ok (!gateRejects ql (lowerStr (joinWith " " (sampleDocs.map (fun d => d.text)))),
           [.store (.findSample pdfId 3)])

/-! ## Stages 1-3 - fallback strategies (lines 263-453) -/

/-- Stage 3 (lines 350-450): extract keywords; when none remain, do nothing;
otherwise run the keyword query (limit 20), drop front-matter chunks when
possible, rank by `keywordCmp`, keep 8, and re-query more specifically (limit
8) when the top result still carries boilerplate. -/
def stage3Keyword (store : Store) (pdfId ql : String) :
    Except (List Event) (List MongoDoc × List Event) :=
  if (meaningfulKeywords ql).isEmpty then .ok ([], [])
  else
    match store.query (.findKeyword pdfId (meaningfulKeywords ql) 20) with
    | .error _ => .error [.store (.findKeyword pdfId (meaningfulKeywords ql) 20)]
    | .ok allDocs =>
      if allDocs.isEmpty then
        .ok ([], [.store (.findKeyword pdfId (meaningfulKeywords ql) 20)])
      else
        if needsSpecificRetry (rankKeywordDocs (meaningfulKeywords ql) (pickDocsToSort allDocs)) then
          match store.query (.findSpecific pdfId (meaningfulKeywords ql) 8) with
          | .error _ =>
            .error [.store (.findKeyword pdfId (meaningfulKeywords ql) 20),
                    .store (.findSpecific pdfId (meaningfulKeywords ql) 8)]
          | .ok specificDocs =>
            if specificDocs.isEmpty then
              .ok (rankKeywordDocs (meaningfulKeywords ql) (pickDocsToSort allDocs),
                   [.store (.findKeyword pdfId (meaningfulKeywords ql) 20),
                    .store (.findSpecific pdfId (meaningfulKeywords ql) 8)])
            else
              .ok (specificDocs,
                   [.store (.findKeyword pdfId (meaningfulKeywords ql) 20),
                    .store (.findSpecific pdfId (meaningfulKeywords ql) 8)])
        else
          .ok (rankKeywordDocs (meaningfulKeywords ql) (pickDocsToSort allDocs),
               [.store (.findKeyword pdfId (meaningfulKeywords ql) 20)])

/-- The strategy dispatch of lines 263-453: Stage 1 for listing requests
(structure query, then heading fallback), Stage 2 for detail-about-the-document
requests (overview query, re-ranked by intro score, top 8), Stage 3 otherwise. -/
def strategies (store : Store) (pdfId ql : String) :
    Except (List Event) (List MongoDoc × List Event) :=
  if isListingRequest ql then
    match store.query (.findStructure pdfId 10) with
    | .error _ => .error [.store (.findStructure pdfId 10)]
    | .ok docs =>
      if docs.isEmpty then
        match store.query (.findHeading pdfId 10) with
        | .error _ =>
          .error [.store (.findStructure pdfId 10), .store (.findHeading pdfId 10)]
        | .ok docs2 =>
          .ok (docs2, [.store (.findStructure pdfId 10), .store (.findHeading pdfId 10)])
      else .ok (docs, [.store (.findStructure pdfId 10)])
  else if isDetailRequest ql then
    match store.query (.findOverview pdfId 10) with
    | .error _ => .error [.store (.findOverview pdfId 10)]
    | .ok docs =>
      if docs.isEmpty then .ok (docs, [.store (.findOverview pdfId 10)])
      else .ok ((sortCmp introCmp docs).take 8, [.store (.findOverview pdfId 10)])
  else stage3Keyword store pdfId ql

/-! ## Response assembly and the full handler -/

/-- Lines 479-497: concat the chunk texts with blank lines; an empty context
yields the "no readable content" message, otherwise a composed answer whose
sources are the chunks in order. -/
def finalizeResp (docs : List MongoDoc) : ChatResponse :=
  if (joinWith "\n\n" (docs.map (fun d => d.text))).isEmpty then .noContent
  else .answer docs

/-- The gate-plus-fallback phase (lines 182-466), reached when Stage 0 produced
no chunks: gate, then strategies, then the size-8 diversity sample when still
empty.  Uncaught store errors become the 500 response. -/
def fallbackPhase (store : Store) (pdfId ql : String) : ChatResponse × List Event :=
  match gateAllows store pdfId ql with
  | .error evs => (.errInternal, evs)
  | .ok (allowed, evs) =>
    if allowed then
      match strategies store pdfId ql with
      | .error evs2 => (.errInternal, evs ++ evs2)
      | .ok (docs, evs2) =>
        if docs.isEmpty then
          match store.query (.sampleAgg pdfId 8) with
          | .error _ =>
            (.errInternal, evs ++ evs2 ++ [.store (.sampleAgg pdfId 8)])
          | .ok sampleDocs =>
            (finalizeResp sampleDocs, evs ++ evs2 ++ [.store (.sampleAgg pdfId 8)])
        else (finalizeResp docs, evs ++ evs2)
    else (.irrelevant, evs)

/-- Everything after a successful embedding call (lines 85-604): Stage 0; on a
non-empty (accepted) Stage 0 result, compose immediately; otherwise the
gate-plus-fallback phase on the lower-cased question. -/
def runRetrieval (store : Store) (pdfId question : String) (qe : List ℚ) :
    ChatResponse × List Event :=
  if (stage0 store qe pdfId).1.isEmpty then
    ((fallbackPhase store pdfId (lowerStr question)).1,
      (stage0 store qe pdfId).2 ++ (fallbackPhase store pdfId (lowerStr question)).2)
  else (finalizeResp (stage0 store qe pdfId).1, (stage0 store qe pdfId).2)

/-- The whole `POST` handler (lines 34-608): message validation (before any
external call), the `countDocuments` guard, the embedding call (un-caught
inside the outer try, so its failure is the 500 response), then retrieval. -/
def runChat (store : Store) (embedSvc : String → Except Unit (List ℚ))
    (messages : List ChatMessage) (pdfId : String) : ChatResponse × List Event :=
  match messages.getLast? with
  | none => (.errNoMessages, [])
  | some lastMessage =>
    if lastMessage.content = "" then (.errNoQuestion, [])
    else if store.count pdfId = 0 then (.noDocuments, [.store (.countDocs pdfId)])
    else
      match embedSvc lastMessage.content with
      | .error _ =>
        (.errInternal, [.store (.countDocs pdfId), .embedCall lastMessage.content])
      | .ok qe =>
        ((runRetrieval store pdfId lastMessage.content qe).1,
          .store (.countDocs pdfId) :: .embedCall lastMessage.content ::
            (runRetrieval store pdfId lastMessage.content qe).2)

/-! ## Ingestion (`src/lib/vectorStore.ts`, `embedAndStoreDocs`) -/

/-- A chunk as ingested: its text and the `metadata.fileId` tag (absent when
the caller supplied none). -/
structure StoredDoc where
  text : String
  fileId : Option String
deriving DecidableEq, Repr

/-- `countDocuments(fileId: fid)` over a modelled collection. -/
def fidCount (coll : List StoredDoc) (fid : String) : Nat :=
  (coll.filter (fun d => d.fileId == some fid)).length

/-- `embedAndStoreDocs` of `vectorStore.ts` lines 27-50: read `fileId` from the
first document's metadata; when it is truthy and chunks for it already exist,
`deleteMany(fileId)`; then insert all new documents
(`MongoDBAtlasVectorSearch.fromDocuments`). -/
def embedAndStoreDocs (docs coll : List StoredDoc) : List StoredDoc :=
  match docs.head? with
  | some d0 =>
    match d0.fileId with
    | some fid =>
      if fid = "" then coll ++ docs
      else if 0 < fidCount coll fid then
        (coll.filter (fun d => !(d.fileId == some fid))) ++ docs
      else coll ++ docs
    | none => coll ++ docs
  | none => coll ++ docs

/-! ## Trace predicates -/

/-- A query is restricted to a document when it carries an equality filter on
`fileId` for that document. -/
def restricted (pid : String) : StoreQuery → Bool
  | .countDocs f => f == pid
  | .vectorSearch _ _ _ _ ff => ff == some pid
  | .findOneAny => false
  | .findSample f _ => f == pid
  | .findStructure f _ => f == pid
  | .findHeading f _ => f == pid
  | .findOverview f _ => f == pid
  | .findKeyword f _ _ => f == pid
  | .findSpecific f _ _ => f == pid
  | .sampleAgg f _ => f == pid

/-- Events that belong to the validation / Stage 0 / relevance-gate phase of a
request for `pid`: the document count, the embedding call, vector searches
(with the debug probe), and the gate's own 3-chunk sample. -/
def gatePhaseEvent (pid : String) : Event → Bool
  | .embedCall _ => true
  | .store (.countDocs f) => f == pid
  | .store (.vectorSearch _ _ _ _ _) => true
  | .store .findOneAny => true
  | .store (.findSample f n) => f == pid && n == 3
  | .store _ => false

/-- Store queries issued only by the fallback phase (the gate sample and
Stages 1-4). -/
def fallbackQueryEvent : Event → Bool
  | .store (.findSample _ _) => true
  | .store (.findStructure _ _) => true
  | .store (.findHeading _ _) => true
  | .store (.findOverview _ _) => true
  | .store (.findKeyword _ _ _) => true
  | .store (.findSpecific _ _ _) => true
  | .store (.sampleAgg _ _) => true
  | _ => false

/-! ## Helper lemmas about traces and branch unfoldings -/

/-- The events of an `Except`-wrapped phase result. -/
def exEvents : Except (List Event) (List MongoDoc × List Event) → List Event
  | .error evs => evs
  | .ok (_, evs) => evs

theorem tryAltIndexes_events (store : Store) (qe : List ℚ) (idxs : List String) :
    ∀ ev ∈ (tryAltIndexes store qe idxs).2,
      ∃ idx, idx ∈ idxs ∧ ev = .store (.vectorSearch idx qe 10 3 none) := by
  induction idxs with
  | nil => simp [tryAltIndexes]
  | cons idx rest ih =>
    intro ev hev
    unfold tryAltIndexes at hev
    cases hq : store.query (.vectorSearch idx qe 10 3 none) with
    | error e =>
      simp only [hq, List.mem_cons] at hev
      rcases hev with h | h
      · exact ⟨idx, by simp, h⟩
      · obtain ⟨i, hi, hevi⟩ := ih ev h
        exact ⟨i, by simp [hi], hevi⟩
    | ok l =>
      by_cases hl : l.isEmpty
      · simp only [hq, hl, if_true, List.mem_cons] at hev
        rcases hev with h | h
        · exact ⟨idx, by simp, h⟩
        · obtain ⟨i, hi, hevi⟩ := ih ev h
          exact ⟨i, by simp [hi], hevi⟩
      · simp [hq, hl] at hev
        exact ⟨idx, by simp, hev⟩

theorem stage0_events (store : Store) (qe : List ℚ) (pdfId : String) :
    ∀ ev ∈ (stage0 store qe pdfId).2,
      ev = .store (.vectorSearch "vector_index" qe 20 5 (some pdfId)) ∨
      ev = .store .findOneAny ∨
      ∃ idx, idx ∈ altIndexes ∧ ev = .store (.vectorSearch idx qe 10 3 none) := by
  intro ev hev
  unfold stage0 at hev
  cases hq : store.query (.vectorSearch "vector_index" qe 20 5 (some pdfId)) with
  | error e =>
    simp only [hq, List.mem_singleton] at hev
    exact Or.inl hev
  | ok docs =>
    by_cases hd : docs.isEmpty
    · cases hf : store.query .findOneAny with
      | error e =>
        simp only [hq, hd, if_true, hf, List.mem_cons, List.mem_singleton,
          List.not_mem_nil, or_false] at hev
        rcases hev with h | h
        · exact Or.inl h
        · exact Or.inr (Or.inl h)
      | ok l =>
        simp only [hq, hd, if_true, hf, List.mem_cons] at hev
        rcases hev with h | h | h
        · exact Or.inl h
        · exact Or.inr (Or.inl h)
        · obtain ⟨i, hi, hevi⟩ := tryAltIndexes_events store qe altIndexes ev h
          exact Or.inr (Or.inr ⟨i, hi, hevi⟩)
    · simp [hq, hd] at hev
      exact Or.inl hev

theorem gateAllows_ok_events (store : Store) (pdfId ql : String) (b : Bool)
    (evs : List Event) (h : gateAllows store pdfId ql = .ok (b, evs)) :
    evs = [] ∨ evs = [.store (.findSample pdfId 3)] := by
  unfold gateAllows at h
  by_cases hg : isGeneralPdfQuestion ql
  · simp [hg] at h
    exact Or.inl h.2
  · cases hq : store.query (.findSample pdfId 3) with
    | error e => simp [hg, hq] at h
    | ok l =>
      simp [hg, hq] at h
      exact Or.inr h.2.symm

theorem gateAllows_error_events (store : Store) (pdfId ql : String)
    (evs : List Event) (h : gateAllows store pdfId ql = .error evs) :
    evs = [.store (.findSample pdfId 3)] := by
  unfold gateAllows at h
  by_cases hg : isGeneralPdfQuestion ql
  · simp [hg] at h
  · cases hq : store.query (.findSample pdfId 3) with
    | error e =>
      simp [hg, hq] at h
      exact h.symm
    | ok l => simp [hg, hq] at h

/-- The possible store queries of Stages 1-3 for a given document/question. -/
def strategyQueryEvent (pid ql : String) (ev : Event) : Prop :=
  ev = .store (.findStructure pid 10) ∨ ev = .store (.findHeading pid 10) ∨
  ev = .store (.findOverview pid 10) ∨
  ev = .store (.findKeyword pid (meaningfulKeywords ql) 20) ∨
  ev = .store (.findSpecific pid (meaningfulKeywords ql) 8)

theorem stage3Keyword_events (store : Store) (pdfId ql : String) :
    ∀ ev ∈ exEvents (stage3Keyword store pdfId ql), strategyQueryEvent pdfId ql ev := by
  intro ev hev
  unfold stage3Keyword at hev
  by_cases hk : (meaningfulKeywords ql).isEmpty
  · simp [hk, exEvents] at hev
  · cases hq : store.query (.findKeyword pdfId (meaningfulKeywords ql) 20) with
    | error e =>
      simp [hk, hq, exEvents] at hev
      exact Or.inr (Or.inr (Or.inr (Or.inl hev)))
    | ok allDocs =>
      by_cases ha : allDocs.isEmpty
      · simp [hk, hq, ha, exEvents] at hev
        exact Or.inr (Or.inr (Or.inr (Or.inl hev)))
      · by_cases hr : needsSpecificRetry (rankKeywordDocs (meaningfulKeywords ql) (pickDocsToSort allDocs))
        · cases hs : store.query (.findSpecific pdfId (meaningfulKeywords ql) 8) with
          | error e =>
            simp [hk, hq, ha, hr, hs, exEvents] at hev
            rcases hev with h | h
            · exact Or.inr (Or.inr (Or.inr (Or.inl h)))
            · exact Or.inr (Or.inr (Or.inr (Or.inr h)))
          | ok specificDocs =>
            by_cases hsd : specificDocs.isEmpty
            · simp [hk, hq, ha, hr, hs, hsd, exEvents] at hev
              rcases hev with h | h
              · exact Or.inr (Or.inr (Or.inr (Or.inl h)))
              · exact Or.inr (Or.inr (Or.inr (Or.inr h)))
            · simp [hk, hq, ha, hr, hs, hsd, exEvents] at hev
              rcases hev with h | h
              · exact Or.inr (Or.inr (Or.inr (Or.inl h)))
              · exact Or.inr (Or.inr (Or.inr (Or.inr h)))
        · simp [hk, hq, ha, hr, exEvents] at hev
          exact Or.inr (Or.inr (Or.inr (Or.inl hev)))

theorem strategies_events (store : Store) (pdfId ql : String) :
    ∀ ev ∈ exEvents (strategies store pdfId ql), strategyQueryEvent pdfId ql ev := by
  intro ev hev
  unfold strategies at hev
  by_cases hl : isListingRequest ql
  · cases hq : store.query (.findStructure pdfId 10) with
    | error e =>
      simp [hl, hq, exEvents] at hev
      exact Or.inl hev
    | ok docs =>
      by_cases hd : docs.isEmpty
      · cases hh : store.query (.findHeading pdfId 10) with
        | error e =>
          simp [hl, hq, hd, hh, exEvents] at hev
          rcases hev with h | h
          · exact Or.inl h
          · exact Or.inr (Or.inl h)
        | ok docs2 =>
          simp [hl, hq, hd, hh, exEvents] at hev
          rcases hev with h | h
          · exact Or.inl h
          · exact Or.inr (Or.inl h)
      · simp [hl, hq, hd, exEvents] at hev
        exact Or.inl hev
  · by_cases hdet : isDetailRequest ql
    · cases hq : store.query (.findOverview pdfId 10) with
      | error e =>
        simp [hl, hdet, hq, exEvents] at hev
        exact Or.inr (Or.inr (Or.inl hev))
      | ok docs =>
        by_cases hd : docs.isEmpty
        · simp [hl, hdet, hq, hd, exEvents] at hev
          exact Or.inr (Or.inr (Or.inl hev))
        · simp [hl, hdet, hq, hd, exEvents] at hev
          exact Or.inr (Or.inr (Or.inl hev))
    · simp only [hl, hdet, if_false, Bool.false_eq_true] at hev
      exact stage3Keyword_events store pdfId ql ev hev

theorem fallbackPhase_reject (store : Store) (pdfId ql : String) (evs : List Event)
    (h : gateAllows store pdfId ql = .ok (false, evs)) :
    fallbackPhase store pdfId ql = (.irrelevant, evs) := by
  unfold fallbackPhase
  rw [h]
  simp

theorem fallbackPhase_allow_nonempty (store : Store) (pdfId ql : String)
    (evs0 evs : List Event) (docs : List MongoDoc)
    (hg : gateAllows store pdfId ql = .ok (true, evs0))
    (hs : strategies store pdfId ql = .ok (docs, evs)) (hne : docs ≠ []) :
    fallbackPhase store pdfId ql = (finalizeResp docs, evs0 ++ evs) := by
  unfold fallbackPhase
  rw [hg]
  simp only [if_true]
  rw [hs]
  simp [List.isEmpty_iff, hne]

theorem fallbackPhase_allow_empty (store : Store) (pdfId ql : String)
    (evs0 evs : List Event) (sdocs : List MongoDoc)
    (hg : gateAllows store pdfId ql = .ok (true, evs0))
    (hs : strategies store pdfId ql = .ok ([], evs))
    (hsamp : store.query (.sampleAgg pdfId 8) = .ok sdocs) :
    fallbackPhase store pdfId ql
      = (finalizeResp sdocs, evs0 ++ evs ++ [.store (.sampleAgg pdfId 8)]) := by
  unfold fallbackPhase
  rw [hg]
  simp only [if_true]
  rw [hs]
  simp [hsamp]

theorem runRetrieval_stage0_nonempty (store : Store) (pdfId question : String)
    (qe : List ℚ) (h : (stage0 store qe pdfId).1 ≠ []) :
    runRetrieval store pdfId question qe
      = (finalizeResp (stage0 store qe pdfId).1, (stage0 store qe pdfId).2) := by
  unfold runRetrieval
  simp [List.isEmpty_iff, h]

theorem runRetrieval_stage0_empty (store : Store) (pdfId question : String)
    (qe : List ℚ) (h : (stage0 store qe pdfId).1 = []) :
    runRetrieval store pdfId question qe
      = ((fallbackPhase store pdfId (lowerStr question)).1,
         (stage0 store qe pdfId).2 ++ (fallbackPhase store pdfId (lowerStr question)).2) := by
  unfold runRetrieval
  simp [List.isEmpty_iff, h]

theorem runChat_ok_unfold (store : Store) (embedSvc : String → Except Unit (List ℚ))
    (messages : List ChatMessage) (pdfId : String) (m : ChatMessage) (qe : List ℚ)
    (hm : messages.getLast? = some m) (hq : m.content ≠ "")
    (hc : store.count pdfId ≠ 0) (he : embedSvc m.content = .ok qe) :
    runChat store embedSvc messages pdfId
      = ((runRetrieval store pdfId m.content qe).1,
         .store (.countDocs pdfId) :: .embedCall m.content ::
           (runRetrieval store pdfId m.content qe).2) := by
  unfold runChat
  rw [hm]
  simp [hq, hc, he]

/-- After ingesting a non-empty batch of chunks all tagged `fid` (truthy), the
chunks of the collection tagged `fid` are exactly that batch, whatever was
there before. -/
theorem ingest_filter (coll docs : List StoredDoc) (fid : String)
    (hfid : fid ≠ "") (hne : docs ≠ [])
    (hall : ∀ d ∈ docs, d.fileId = some fid) :
    (embedAndStoreDocs docs coll).filter (fun d => d.fileId == some fid) = docs := by
  have hdocs : docs.filter (fun d => d.fileId == some fid) = docs :=
    List.filter_eq_self.mpr (fun d hd => by simp [hall d hd])
  cases docs with
  | nil => exact absurd rfl hne
  | cons d0 t =>
    have hd0 : d0.fileId = some fid := hall d0 (List.mem_cons_self d0 t)
    unfold embedAndStoreDocs
    simp only [List.head?_cons, hd0]
    rw [if_neg hfid]
    by_cases hcnt : 0 < fidCount coll fid
    · rw [if_pos hcnt, List.filter_append, hdocs]
      have hnil : (coll.filter (fun d => !(d.fileId == some fid))).filter
          (fun d => d.fileId == some fid) = [] := by
        rw [List.filter_eq_nil_iff]
        intro a ha
        have := List.of_mem_filter ha
        simp_all
      rw [hnil, List.nil_append]
    · rw [if_neg hcnt, List.filter_append, hdocs]
      have hnil : coll.filter (fun d => d.fileId == some fid) = [] :=
        List.length_eq_zero.mp (Nat.eq_zero_of_not_pos hcnt)
      rw [hnil, List.nil_append]

/-! ## Claims -/

/-- C8: ingesting chunks for the same `fileId` twice leaves the store holding
exactly the second ingestion's chunks for that id: `deleteMany` removes all
prior chunks before `insertMany`, so the final chunk count for the id is the
second batch's count, with no duplicate accumulation. -/
theorem C8_reingest_idempotent (coll docs1 docs2 : List StoredDoc) (fid : String)
    (hfid : fid ≠ "") (h1ne : docs1 ≠ []) (h2ne : docs2 ≠ [])
    (h1 : ∀ d ∈ docs1, d.fileId = some fid) (h2 : ∀ d ∈ docs2, d.fileId = some fid) :
    (embedAndStoreDocs docs2 (embedAndStoreDocs docs1 coll)).filter
        (fun d => d.fileId == some fid) = docs2 ∧
    fidCount (embedAndStoreDocs docs2 (embedAndStoreDocs docs1 coll)) fid
      = docs2.length := by
  have hfin : (embedAndStoreDocs docs2 (embedAndStoreDocs docs1 coll)).filter
      (fun d => d.fileId == some fid) = docs2 :=
    ingest_filter (embedAndStoreDocs docs1 coll) docs2 fid hfid h2ne h2
  exact ⟨hfin, by rw [fidCount, hfin]⟩

/-- C8 witness: a concrete double ingestion. -/
theorem C8_reingest_idempotent_witness :
    (embedAndStoreDocs
        [⟨"chunk c", some "f"⟩]
        (embedAndStoreDocs [⟨"chunk a", some "f"⟩, ⟨"chunk b", some "f"⟩]
          [⟨"other", some "g"⟩])).filter
        (fun d => d.fileId == some "f") = [⟨"chunk c", some "f"⟩] ∧
    fidCount
      (embedAndStoreDocs
        [⟨"chunk c", some "f"⟩]
        (embedAndStoreDocs [⟨"chunk a", some "f"⟩, ⟨"chunk b", some "f"⟩]
          [⟨"other", some "g"⟩])) "f" = 1 :=
  C8_reingest_idempotent [⟨"other", some "g"⟩]
    [⟨"chunk a", some "f"⟩, ⟨"chunk b", some "f"⟩] [⟨"chunk c", some "f"⟩] "f"
    (by decide) (by decide) (by decide) (by decide) (by decide)

/-- C9: a request whose messages list is empty gets the 400 "No messages
provided" response, and one whose last message has empty content gets the 400
"Question is required" response, both with an empty trace - neither the chunk
store nor the embedding service is contacted. -/
theorem C9_validation_before_io (store : Store)
    (embedSvc : String → Except Unit (List ℚ)) (messages : List ChatMessage)
    (pdfId : String) :
    (messages = [] → runChat store embedSvc messages pdfId = (.errNoMessages, [])) ∧
    (∀ m, messages.getLast? = some m → m.content = "" →
      runChat store embedSvc messages pdfId = (.errNoQuestion, [])) := by
  constructor
  · intro h
    subst h
    rfl
  · intro m hm hq
    unfold runChat
    rw [hm]
    simp [hq]

/-- C9 witness: both validation failures at concrete inputs. -/
theorem C9_validation_before_io_witness :
    runChat ⟨fun _ => 1, fun _ => .ok []⟩ (fun _ => .ok []) [] "x"
        = (.errNoMessages, []) ∧
    runChat ⟨fun _ => 1, fun _ => .ok []⟩ (fun _ => .ok [])
        [{ role := "user", content := "" }] "x" = (.errNoQuestion, []) :=
  ⟨(C9_validation_before_io _ _ _ _).1 rfl,
   (C9_validation_before_io _ _ _ _).2 { role := "user", content := "" } rfl rfl⟩

/-- A store holding one chunk for every id whose every query answers with an
empty list. -/
def emptyStore : Store := ⟨fun _ => 1, fun _ => .ok []⟩

/-- C4 counterexample: when the embedding call fails, the request does not
proceed from Stage 1 - it ends with the 500 "Internal Server Error" response,
right after the document count, with no retrieval stage run at all. -/
theorem C4_counterexample :
    runChat emptyStore (fun _ => .error ())
        [{ role := "user", content := "explain energy" }] "x"
      = (.errInternal, [.store (.countDocs "x"), .embedCall "explain energy"]) := by
  rfl

/-- C4 amended: an `EmbeddingServiceError` is not caught by any inner handler;
the whole request fails with the 500 response immediately after the embedding
call, and no retrieval stage (0-4) and no further store query runs. -/
theorem C4_embed_failure_fails_request (store : Store)
    (embedSvc : String → Except Unit (List ℚ)) (messages : List ChatMessage)
    (pdfId : String) (m : ChatMessage)
    (hm : messages.getLast? = some m) (hq : m.content ≠ "")
    (hc : store.count pdfId ≠ 0) (he : embedSvc m.content = .error ()) :
    runChat store embedSvc messages pdfId
      = (.errInternal, [.store (.countDocs pdfId), .embedCall m.content]) := by
  unfold runChat
  rw [hm]
  simp [hq, hc, he]

/-- C4 witness for the amended theorem. -/
theorem C4_embed_failure_fails_request_witness :
    runChat emptyStore (fun _ => .error ())
        [{ role := "user", content := "what is energy" }] "y"
      = (.errInternal, [.store (.countDocs "y"), .embedCall "what is energy"]) :=
  C4_embed_failure_fails_request emptyStore (fun _ => .error ())
    [{ role := "user", content := "what is energy" }] "y"
    { role := "user", content := "what is energy" } rfl (by decide) (by decide) rfl

theorem applyThreshold_scores (docs : List MongoDoc) :
    ∀ d ∈ applyThreshold docs, scoreThreshold ≤ d.score.getD 0 := by
  intro d hd
  unfold applyThreshold at hd
  cases docs with
  | nil => simp at hd
  | cons d0 t =>
    simp only [List.head?_cons] at hd
    split at hd
    · simp at hd
    · have := List.of_mem_filter hd
      exact of_decide_eq_true this

/-- Two low-score chunks as an alternative-index answer. -/
def lowDocA : MongoDoc := { text := "alt result a", fileId := "x", score := some (mkRat 3 10) }

/-- The second low-score chunk. -/
def lowDocB : MongoDoc := { text := "alt result b", fileId := "x", score := some (mkRat 2 10) }

/-- A store whose primary vector search answers empty and whose "default"
alternative index answers the two low-score chunks. -/
def altLowStore : Store :=
  ⟨fun _ => 1, fun q =>
    match q with
    | .vectorSearch "default" _ 10 3 none => .ok [lowDocA, lowDocB]
    | _ => .ok []⟩

/-- C2 counterexample: Stage 0 yields a non-empty chunk set whose best (first)
score 0.3 lies below the 0.6 floor - the alternative-index retry results
bypass the similarity floor, so the set is not discarded. -/
theorem C2_counterexample :
    (stage0 altLowStore [] "x").1 = [lowDocA, lowDocB] ∧
    lowDocA.score.getD 0 < scoreThreshold ∧
    lowDocB.score.getD 0 < scoreThreshold := by
  refine ⟨by decide, by decide, by decide⟩

/-- C2 amended: the similarity floor is enforced on the primary vector
search - whenever the primary `$vectorSearch` answers a non-empty set, the
accepted Stage 0 result passes through `applyThreshold`, and every surviving
chunk's score reaches 0.6 (a set whose best score is below the floor is
discarded entirely).  Alternative-index retry results bypass the floor. -/
theorem C2_amended_primary_floor (store : Store) (qe : List ℚ) (pdfId : String)
    (docs : List MongoDoc)
    (h : store.query (.vectorSearch "vector_index" qe 20 5 (some pdfId)) = .ok docs)
    (hne : docs ≠ []) :
    (stage0 store qe pdfId).1 = applyThreshold docs ∧
    ∀ d ∈ (stage0 store qe pdfId).1, scoreThreshold ≤ d.score.getD 0 := by
  have h1 : (stage0 store qe pdfId).1 = applyThreshold docs := by
    unfold stage0
    rw [h]
    simp [List.isEmpty_iff, hne]
  exact ⟨h1, by rw [h1]; exact applyThreshold_scores docs⟩

/-- A chunk above the similarity floor. -/
def goodDoc : MongoDoc := { text := "relevant text", fileId := "x", score := some (mkRat 8 10) }

/-- A chunk below the similarity floor. -/
def badDoc : MongoDoc := { text := "weak match", fileId := "x", score := some (mkRat 1 2) }

/-- A store whose primary vector search answers one chunk above and one below
the floor. -/
def primaryStore : Store :=
  ⟨fun _ => 1, fun q =>
    match q with
    | .vectorSearch "vector_index" _ 20 5 (some _) => .ok [goodDoc, badDoc]
    | _ => .ok []⟩

/-- C2 witness for the amended theorem. -/
theorem C2_amended_primary_floor_witness :
    (stage0 primaryStore [] "x").1 = applyThreshold [goodDoc, badDoc] ∧
    scoreThreshold ≤ goodDoc.score.getD 0 :=
  ⟨(C2_amended_primary_floor primaryStore [] "x" [goodDoc, badDoc] rfl (by decide)).1,
   (C2_amended_primary_floor primaryStore [] "x" [goodDoc, badDoc] rfl (by decide)).2
     goodDoc (by decide)⟩

theorem fallbackPhase_events (store : Store) (pdfId ql : String) :
    ∀ ev ∈ (fallbackPhase store pdfId ql).2,
      ev = .store (.findSample pdfId 3) ∨ strategyQueryEvent pdfId ql ev ∨
      ev = .store (.sampleAgg pdfId 8) := by
  intro ev hev
  have hstrat : ∀ evs : List Event, ev ∈ evs →
      evs = exEvents (strategies store pdfId ql) →
      strategyQueryEvent pdfId ql ev := by
    intro evs hin hevs
    exact strategies_events store pdfId ql ev (hevs ▸ hin)
  unfold fallbackPhase at hev
  cases hg : gateAllows store pdfId ql with
  | error evs =>
    simp only [hg] at hev
    rw [gateAllows_error_events store pdfId ql evs hg] at hev
    simp at hev
    exact Or.inl hev
  | ok p =>
    obtain ⟨allowed, evs⟩ := p
    have hgate : ev ∈ evs → ev = .store (.findSample pdfId 3) := by
      intro hin
      rcases gateAllows_ok_events store pdfId ql allowed evs hg with h | h
      · subst h; simp at hin
      · subst h; simpa using hin
    simp only [hg] at hev
    by_cases ha : allowed = true
    · cases hs : strategies store pdfId ql with
      | error evs2 =>
        simp [ha, hs] at hev
        rcases hev with h | h
        · exact Or.inl (hgate h)
        · exact Or.inr (Or.inl (hstrat evs2 h (by rw [hs]; rfl)))
      | ok p2 =>
        obtain ⟨docs, evs2⟩ := p2
        by_cases hd : docs.isEmpty
        · cases hsamp : store.query (.sampleAgg pdfId 8) with
          | error e =>
            simp [ha, hs, hd, hsamp] at hev
            rcases hev with h | h | h
            · exact Or.inl (hgate h)
            · exact Or.inr (Or.inl (hstrat evs2 h (by rw [hs]; rfl)))
            · exact Or.inr (Or.inr h)
          | ok sdocs =>
            simp [ha, hs, hd, hsamp] at hev
            rcases hev with h | h | h
            · exact Or.inl (hgate h)
            · exact Or.inr (Or.inl (hstrat evs2 h (by rw [hs]; rfl)))
            · exact Or.inr (Or.inr h)
        · simp [ha, hs, hd] at hev
          rcases hev with h | h
          · exact Or.inl (hgate h)
          · exact Or.inr (Or.inl (hstrat evs2 h (by rw [hs]; rfl)))
    · simp [ha] at hev
      exact Or.inl (hgate hev)

/-- A high-score chunk belonging to a different document. -/
def foreignDoc : MongoDoc :=
  { text := "chunk from another pdf", fileId := "otherdoc", score := some (mkRat 9 10) }

/-- A store whose primary vector search answers empty while the "default"
alternative index answers a chunk of another document. -/
def altForeignStore : Store :=
  ⟨fun _ => 1, fun q =>
    match q with
    | .vectorSearch "default" _ 10 3 none => .ok [foreignDoc]
    | _ => .ok []⟩

/-- C5 counterexample: a request for document "x" issues an alternative-index
vector search carrying no `fileId` restriction, and the chunk of another
document that it returns becomes the entire answer context. -/
theorem C5_counterexample :
    Event.store (.vectorSearch "default" [] 10 3 none)
        ∈ (runChat altForeignStore (fun _ => .ok [])
            [{ role := "user", content := "explain energy" }] "x").2 ∧
    restricted "x" (.vectorSearch "default" [] 10 3 none) = false ∧
    (runChat altForeignStore (fun _ => .ok [])
        [{ role := "user", content := "explain energy" }] "x").1
      = .answer [foreignDoc] ∧
    foreignDoc.fileId ≠ "x" := by
  refine ⟨by decide, by decide, by decide, by decide⟩

/-- C5 amended: every chunk-store query a request for `pdfId` issues is
restricted to `fileId = pdfId`, except exactly the debug `findOne` probe and
the Stage-0 alternative-index vector retries, which carry no `fileId` filter
(and whose results can therefore inject chunks of another document). -/
theorem C5_amended_scoping (store : Store)
    (embedSvc : String → Except Unit (List ℚ)) (messages : List ChatMessage)
    (pdfId : String) :
    ∀ q : StoreQuery, Event.store q ∈ (runChat store embedSvc messages pdfId).2 →
      restricted pdfId q = true ∨ q = .findOneAny ∨
      ∃ idx qv, idx ∈ altIndexes ∧ q = .vectorSearch idx qv 10 3 none := by
  intro q hq
  unfold runChat at hq
  cases hm : messages.getLast? with
  | none => simp [hm] at hq
  | some m =>
    simp only [hm] at hq
    by_cases hemptyq : m.content = ""
    · simp [hemptyq] at hq
    · by_cases hcnt : store.count pdfId = 0
      · simp [hemptyq, hcnt] at hq
        simp [hq, restricted]
      · cases he : embedSvc m.content with
        | error e =>
          simp [hemptyq, hcnt, he] at hq
          simp [hq, restricted]
        | ok qe =>
          simp [hemptyq, hcnt, he] at hq
          rcases hq with h | h
          · simp [h, restricted]
          · have hret : Event.store q ∈ (runRetrieval store pdfId m.content qe).2 := h
            unfold runRetrieval at hret
            by_cases hs0 : (stage0 store qe pdfId).1.isEmpty
            · simp only [hs0, if_true, List.mem_append] at hret
              rcases hret with h0 | hfb
              · rcases stage0_events store qe pdfId _ h0 with h1 | h1 | ⟨i, hi, h1⟩
                · injection h1 with h1q
                  subst h1q
                  simp [restricted]
                · injection h1 with h1q
                  exact Or.inr (Or.inl h1q)
                · injection h1 with h1q
                  exact Or.inr (Or.inr ⟨i, qe, hi, h1q⟩)
              · rcases fallbackPhase_events store pdfId (lowerStr m.content) _ hfb
                  with h1 | h1 | h1
                · injection h1 with h1q
                  subst h1q
                  simp [restricted]
                · rcases h1 with h2 | h2 | h2 | h2 | h2 <;>
                    (injection h2 with h2q; subst h2q; simp [restricted])
                · injection h1 with h1q
                  subst h1q
                  simp [restricted]
            · simp only [hs0, if_false, Bool.false_eq_true] at hret
              rcases stage0_events store qe pdfId _ hret with h1 | h1 | ⟨i, hi, h1⟩
              · injection h1 with h1q
                subst h1q
                simp [restricted]
              · injection h1 with h1q
                exact Or.inr (Or.inl h1q)
              · injection h1 with h1q
                exact Or.inr (Or.inr ⟨i, qe, hi, h1q⟩)

/-- C5 witness for the amended theorem: the document-count query of a concrete
run is restricted to the requested document. -/
theorem C5_amended_scoping_witness :
    restricted "x" (.countDocs "x") = true ∨
    (StoreQuery.countDocs "x") = .findOneAny ∨
    ∃ idx qv, idx ∈ altIndexes ∧
      (StoreQuery.countDocs "x") = .vectorSearch idx qv 10 3 none :=
  C5_amended_scoping emptyStore (fun _ => .ok [])
    [{ role := "user", content := "explain energy" }] "x"
    (.countDocs "x") (by decide)

/-- A store whose gate sample answers a physics chunk and whose other queries
answer empty. -/
def physSampleStore : Store :=
  ⟨fun _ => 1, fun q =>
    match q with
    | .findSample _ _ => .ok [{ text := "photon electron physics", fileId := "x" }]
    | _ => .ok []⟩

/-- C3 counterexample: an obviously-unrelated question on a physics document is
rejected by the gate, yet the document count, the Stage-0 vector search, and
the gate's own sample `find` - all chunk-store queries - were executed in that
request before the rejection. -/
theorem C3_counterexample :
    (runChat physSampleStore (fun _ => .ok [])
        [{ role := "user", content := "whats your favorite recipe" }] "x").1
      = .irrelevant ∧
    Event.store (.countDocs "x")
        ∈ (runChat physSampleStore (fun _ => .ok [])
            [{ role := "user", content := "whats your favorite recipe" }] "x").2 ∧
    Event.store (.vectorSearch "vector_index" [] 20 5 (some "x"))
        ∈ (runChat physSampleStore (fun _ => .ok [])
            [{ role := "user", content := "whats your favorite recipe" }] "x").2 ∧
    Event.store (.findSample "x" 3)
        ∈ (runChat physSampleStore (fun _ => .ok [])
            [{ role := "user", content := "whats your favorite recipe" }] "x").2 := by
  refine ⟨by decide, by decide, by decide, by decide⟩

/-- C3 amended: the relevance gate runs only after Stage 0 has produced no
chunks, and a rejection happens before any Stage 1-4 query: a rejected
request's trace consists solely of the document count, the embedding call,
Stage-0 vector searches (with the debug probe), and the gate's own 3-chunk
sample. -/
theorem C3_amended_reject_before_fallback (store : Store)
    (embedSvc : String → Except Unit (List ℚ)) (messages : List ChatMessage)
    (pdfId : String) (m : ChatMessage) (qe : List ℚ) (evs : List Event)
    (hm : messages.getLast? = some m) (hq : m.content ≠ "")
    (hc : store.count pdfId ≠ 0) (he : embedSvc m.content = .ok qe)
    (hs0 : (stage0 store qe pdfId).1 = [])
    (hreject : gateAllows store pdfId (lowerStr m.content) = .ok (false, evs)) :
    runChat store embedSvc messages pdfId
      = (.irrelevant,
         .store (.countDocs pdfId) :: .embedCall m.content ::
           ((stage0 store qe pdfId).2 ++ evs)) ∧
    ∀ ev ∈ (runChat store embedSvc messages pdfId).2,
      gatePhaseEvent pdfId ev = true := by
  have h1 : runChat store embedSvc messages pdfId
      = (.irrelevant,
         .store (.countDocs pdfId) :: .embedCall m.content ::
           ((stage0 store qe pdfId).2 ++ evs)) := by
    rw [runChat_ok_unfold store embedSvc messages pdfId m qe hm hq hc he,
        runRetrieval_stage0_empty store pdfId m.content qe hs0,
        fallbackPhase_reject store pdfId (lowerStr m.content) evs hreject]
  refine ⟨h1, ?_⟩
  intro ev hev
  rw [h1] at hev
  simp only [List.mem_cons, List.mem_append] at hev
  rcases hev with h | h | h | h
  · subst h; simp [gatePhaseEvent]
  · subst h; simp [gatePhaseEvent]
  · rcases stage0_events store qe pdfId _ h with h2 | h2 | ⟨i, hi, h2⟩ <;>
      (subst h2; simp [gatePhaseEvent])
  · rcases gateAllows_ok_events store pdfId (lowerStr m.content) false evs hreject
      with he2 | he2
    · subst he2; simp at h
    · subst he2
      simp only [List.mem_singleton] at h
      subst h
      simp [gatePhaseEvent]

/-- C3 witness for the amended theorem. -/
theorem C3_amended_reject_before_fallback_witness :
    runChat physSampleStore (fun _ => .ok [])
        [{ role := "user", content := "whats your favorite recipe" }] "x"
      = (.irrelevant,
         .store (.countDocs "x") :: .embedCall "whats your favorite recipe" ::
           ((stage0 physSampleStore [] "x").2 ++ [.store (.findSample "x" 3)])) :=
  (C3_amended_reject_before_fallback physSampleStore (fun _ => .ok [])
    [{ role := "user", content := "whats your favorite recipe" }] "x"
    { role := "user", content := "whats your favorite recipe" } []
    [.store (.findSample "x" 3)]
    rfl (by decide) (by decide) rfl (by decide) rfl).1

/-- C6: the cascade short-circuits.  (a) When Stage 0 returns a non-empty
accepted result, the answer is composed from it and no gate/Stage 1-4 store
query appears in the trace.  (b) More generally, when Stage 0 is empty and the
first triggered fallback strategy returns at least one chunk, that set is the
final result and the Stage-4 diversity sample is never queried. -/
theorem C6_cascade_short_circuit (store : Store)
    (embedSvc : String → Except Unit (List ℚ)) (messages : List ChatMessage)
    (pdfId : String) (m : ChatMessage) (qe : List ℚ)
    (hm : messages.getLast? = some m) (hq : m.content ≠ "")
    (hc : store.count pdfId ≠ 0) (he : embedSvc m.content = .ok qe) :
    ((stage0 store qe pdfId).1 ≠ [] →
      runChat store embedSvc messages pdfId
        = (finalizeResp (stage0 store qe pdfId).1,
           .store (.countDocs pdfId) :: .embedCall m.content ::
             (stage0 store qe pdfId).2) ∧
      ∀ ev ∈ (runChat store embedSvc messages pdfId).2,
        fallbackQueryEvent ev = false) ∧
    (∀ evs0 docs evs, (stage0 store qe pdfId).1 = [] →
      gateAllows store pdfId (lowerStr m.content) = .ok (true, evs0) →
      strategies store pdfId (lowerStr m.content) = .ok (docs, evs) → docs ≠ [] →
      runChat store embedSvc messages pdfId
        = (finalizeResp docs,
           .store (.countDocs pdfId) :: .embedCall m.content ::
             ((stage0 store qe pdfId).2 ++ (evs0 ++ evs))) ∧
      Event.store (.sampleAgg pdfId 8) ∉ (runChat store embedSvc messages pdfId).2) := by
  constructor
  · intro hne
    have h1 : runChat store embedSvc messages pdfId
        = (finalizeResp (stage0 store qe pdfId).1,
           .store (.countDocs pdfId) :: .embedCall m.content ::
             (stage0 store qe pdfId).2) := by
      rw [runChat_ok_unfold store embedSvc messages pdfId m qe hm hq hc he,
          runRetrieval_stage0_nonempty store pdfId m.content qe hne]
    refine ⟨h1, ?_⟩
    intro ev hev
    rw [h1] at hev
    simp only [List.mem_cons] at hev
    rcases hev with h | h | h
    · subst h; rfl
    · subst h; rfl
    · rcases stage0_events store qe pdfId _ h with h2 | h2 | ⟨i, hi, h2⟩ <;>
        (subst h2; rfl)
  · intro evs0 docs evs hs0 hgate hstrat hne
    have h1 : runChat store embedSvc messages pdfId
        = (finalizeResp docs,
           .store (.countDocs pdfId) :: .embedCall m.content ::
             ((stage0 store qe pdfId).2 ++ (evs0 ++ evs))) := by
      rw [runChat_ok_unfold store embedSvc messages pdfId m qe hm hq hc he,
          runRetrieval_stage0_empty store pdfId m.content qe hs0,
          fallbackPhase_allow_nonempty store pdfId (lowerStr m.content) evs0 evs
            docs hgate hstrat hne]
    refine ⟨h1, ?_⟩
    intro hmem
    rw [h1] at hmem
    simp only [List.mem_cons, List.mem_append] at hmem
    rcases hmem with h | h | h | h | h
    · cases h
    · cases h
    · rcases stage0_events store qe pdfId _ h with h2 | h2 | ⟨i, hi, h2⟩ <;>
        cases h2
    · rcases gateAllows_ok_events store pdfId (lowerStr m.content) true evs0 hgate
        with he2 | he2
      · subst he2; simp at h
      · subst he2; simp only [List.mem_singleton] at h; cases h
    · have := strategies_events store pdfId (lowerStr m.content) _
        (show _ ∈ exEvents (strategies store pdfId (lowerStr m.content)) by
          rw [hstrat]; exact h)
      rcases this with h2 | h2 | h2 | h2 | h2 <;> cases h2

/-- A store whose primary vector search answers a chunk above the floor. -/
def vectorHitStore : Store :=
  ⟨fun _ => 1, fun q =>
    match q with
    | .vectorSearch "vector_index" _ 20 5 (some _) => .ok [goodDoc]
    | _ => .ok []⟩

/-- C6 witness: a concrete run in which Stage 0 hits and the response is
composed from its result, with no fallback query in the trace. -/
theorem C6_cascade_short_circuit_witness :
    runChat vectorHitStore (fun _ => .ok [])
        [{ role := "user", content := "explain energy" }] "x"
      = (finalizeResp (stage0 vectorHitStore [] "x").1,
         .store (.countDocs "x") :: .embedCall "explain energy" ::
           (stage0 vectorHitStore [] "x").2) :=
  ((C6_cascade_short_circuit vectorHitStore (fun _ => .ok [])
    [{ role := "user", content := "explain energy" }] "x"
    { role := "user", content := "explain energy" } []
    rfl (by decide) (by decide) rfl).1 (by decide)).1

/-- C7 counterexample: "buy" has no word longer than 3 characters, yet the gate
rejects it (the request ends with the rejection message), because the
obviously-unrelated pattern list contains 3-character words such as `buy` and
`app`. -/
theorem C7_counterexample :
    questionTerms (lowerStr "buy") = [] ∧
    (runChat physSampleStore (fun _ => .ok [])
        [{ role := "user", content := "buy" }] "x").1 = .irrelevant := by
  refine ⟨by decide, by decide⟩

/-- C7 amended: the gate's exact behaviour on a question with no word longer
than 3 characters.  Such a question is never rejected for lack of term
overlap: if it contains a document-meta marker it is relevant without even
sampling the store (the marker check precedes the pattern check, so e.g.
"buy pdf" is allowed although it matches a pattern); otherwise its fate is
decided by the obviously-unrelated patterns alone - relevant when none
matches, rejected when one does (several patterns match words of at most 3
characters, e.g. `app`, `buy`). -/
theorem C7_amended_short_question_gate (store : Store) (pid ql : String)
    (sdocs : List MongoDoc)
    (hterms : questionTerms ql = []) :
    (isGeneralPdfQuestion ql = true → gateAllows store pid ql = .ok (true, [])) ∧
    (isGeneralPdfQuestion ql = false →
      store.query (.findSample pid 3) = .ok sdocs →
      gateAllows store pid ql
        = .ok (!isObviouslyUnrelated ql, [.store (.findSample pid 3)])) := by
  constructor
  · intro hg
    unfold gateAllows
    simp [hg]
  · intro hng hs
    unfold gateAllows
    simp only [hng, Bool.false_eq_true, if_false]
    rw [hs]
    simp [gateRejects, hasRelevantTerms, hterms]

/-- C7 witness for the amended theorem: "buy pdf" (meta marker, pattern match)
is allowed with no store sampling; "is it ok" (no marker, no pattern) is
allowed after sampling; "buy" (no marker, pattern match) is rejected. -/
theorem C7_amended_short_question_gate_witness :
    gateAllows physSampleStore "x" "buy pdf" = .ok (true, []) ∧
    gateAllows physSampleStore "x" "is it ok"
      = .ok (true, [.store (.findSample "x" 3)]) ∧
    gateAllows physSampleStore "x" "buy"
      = .ok (false, [.store (.findSample "x" 3)]) :=
  ⟨(C7_amended_short_question_gate physSampleStore "x" "buy pdf"
      [{ text := "photon electron physics", fileId := "x" }] (by decide)).1
      (by decide),
   (C7_amended_short_question_gate physSampleStore "x" "is it ok"
      [{ text := "photon electron physics", fileId := "x" }] (by decide)).2
      (by decide) rfl,
   (C7_amended_short_question_gate physSampleStore "x" "buy"
      [{ text := "photon electron physics", fileId := "x" }] (by decide)).2
      (by decide) rfl⟩

/-- C10: a question that reaches Stage 3 but yields no meaningful keyword
issues no keyword query at all; the request falls through to the size-8
diversity sample, which supplies the response. -/
theorem C10_no_keywords_diversity_sample (store : Store)
    (embedSvc : String → Except Unit (List ℚ)) (messages : List ChatMessage)
    (pdfId : String) (m : ChatMessage) (qe : List ℚ) (evs0 : List Event)
    (sdocs : List MongoDoc)
    (hm : messages.getLast? = some m) (hq : m.content ≠ "")
    (hc : store.count pdfId ≠ 0) (he : embedSvc m.content = .ok qe)
    (hs0 : (stage0 store qe pdfId).1 = [])
    (hgate : gateAllows store pdfId (lowerStr m.content) = .ok (true, evs0))
    (hnl : isListingRequest (lowerStr m.content) = false)
    (hnd : isDetailRequest (lowerStr m.content) = false)
    (hkw : meaningfulKeywords (lowerStr m.content) = [])
    (hsample : store.query (.sampleAgg pdfId 8) = .ok sdocs) :
    runChat store embedSvc messages pdfId
      = (finalizeResp sdocs,
         .store (.countDocs pdfId) :: .embedCall m.content ::
           ((stage0 store qe pdfId).2 ++
             (evs0 ++ [] ++ [.store (.sampleAgg pdfId 8)]))) ∧
    ∀ (f : String) (kws : List String) (n : Nat),
      Event.store (.findKeyword f kws n)
        ∉ (runChat store embedSvc messages pdfId).2 := by
  have hstrat : strategies store pdfId (lowerStr m.content) = .ok ([], []) := by
    unfold strategies stage3Keyword
    simp [hnl, hnd, hkw]
  have h1 : runChat store embedSvc messages pdfId
      = (finalizeResp sdocs,
         .store (.countDocs pdfId) :: .embedCall m.content ::
           ((stage0 store qe pdfId).2 ++
             (evs0 ++ [] ++ [.store (.sampleAgg pdfId 8)]))) := by
    rw [runChat_ok_unfold store embedSvc messages pdfId m qe hm hq hc he,
        runRetrieval_stage0_empty store pdfId m.content qe hs0,
        fallbackPhase_allow_empty store pdfId (lowerStr m.content) evs0 []
          sdocs hgate hstrat hsample]
  refine ⟨h1, ?_⟩
  intro f kws n hmem
  rw [h1] at hmem
  simp only [List.mem_cons, List.mem_append, List.mem_singleton,
    List.not_mem_nil, or_false, false_or] at hmem
  rcases hmem with h | h | h | h | h
  · cases h
  · cases h
  · rcases stage0_events store qe pdfId _ h with h2 | h2 | ⟨i, hi, h2⟩ <;> cases h2
  · rcases gateAllows_ok_events store pdfId (lowerStr m.content) true evs0 hgate
      with he2 | he2
    · subst he2; simp at h
    · subst he2; simp only [List.mem_singleton] at h; cases h
  · cases h

/-- A store answering only the diversity sample. -/
def diversityStore : Store :=
  ⟨fun _ => 1, fun q =>
    match q with
    | .sampleAgg _ _ => .ok [{ text := "sampled chunk", fileId := "x" }]
    | _ => .ok []⟩

/-- C10 witness: the question "pdf" (one 3-character word, no keywords) falls
through to the diversity sample. -/
theorem C10_no_keywords_diversity_sample_witness :
    runChat diversityStore (fun _ => .ok [])
        [{ role := "user", content := "pdf" }] "x"
      = (finalizeResp [{ text := "sampled chunk", fileId := "x" }],
         .store (.countDocs "x") :: .embedCall "pdf" ::
           ((stage0 diversityStore [] "x").2 ++
             ([] ++ [] ++ [.store (.sampleAgg "x" 8)]))) :=
  (C10_no_keywords_diversity_sample diversityStore (fun _ => .ok [])
    [{ role := "user", content := "pdf" }] "x"
    { role := "user", content := "pdf" } [] []
    [{ text := "sampled chunk", fileId := "x" }]
    rfl (by decide) (by decide) rfl (by decide) rfl (by decide) (by decide)
    (by decide) rfl).1

/-- A 600-character chunk matching all three of energy/electron/quantum. -/
def chunkA : MongoDoc :=
  { text := String.mk ("energy electron quantum ".data ++ List.replicate 576 'x'),
    fileId := "doc1" }

/-- An 1800-character chunk matching only "energy". -/
def chunkB : MongoDoc :=
  { text := String.mk ("energy ".data ++ List.replicate 1793 'x'), fileId := "doc1" }

/-- A 100-character chunk matching "energy" and "electron". -/
def chunkC : MongoDoc :=
  { text := String.mk ("energy electron ".data ++ List.replicate 84 'x'),
    fileId := "doc1" }

/-- A 100-character chunk (outside the preferred band) matching "energy". -/
def chunkD : MongoDoc :=
  { text := String.mk ("energy ".data ++ List.replicate 93 'x'), fileId := "doc1" }

/-- A 600-character chunk (inside the preferred band) matching "energy". -/
def chunkE : MongoDoc :=
  { text := String.mk ("energy ".data ++ List.replicate 593 'x'), fileId := "doc1" }

/-- C1 counterexample: the claimed scenario cannot exist - with the keywords
`["energy", "electron"]` the match count is the number of distinct keywords
contained, which never exceeds 2, so no chunk has count 3. -/
theorem C1_counterexample :
    ¬ ∃ a b c : MongoDoc,
      kwMatchCount ["energy", "electron"] a.text = 3 ∧
      kwMatchCount ["energy", "electron"] b.text = 1 ∧
      kwMatchCount ["energy", "electron"] c.text = 2 ∧
      a.text.length = 600 ∧ b.text.length = 1800 ∧ c.text.length = 100 ∧
      rankKeywordDocs ["energy", "electron"] [a, b, c] = [a, c, b] := by
  rintro ⟨a, b, c, h3, -, -, -, -, -, -⟩
  have hle : kwMatchCount ["energy", "electron"] a.text ≤ 2 := by
    have h := List.length_filter_le
      (fun k => strIncludes (lowerStr a.text) k) ["energy", "electron"]
    simpa [kwMatchCount] using h
  omega

/-- C1 amended: with a keyword list under which the counts [3,1,2] are
achievable (`["energy", "electron", "quantum"]`), candidates with
(count, length) = (3, 600), (1, 1800), (2, 100) rank count-3 first, then
count-2, then count-1; and among equal counts a chunk whose length lies in
[500, 2000] sorts before one outside the band. -/
theorem C1_amended_keyword_ranking :
    kwMatchCount ["energy", "electron", "quantum"] chunkA.text = 3 ∧
    kwMatchCount ["energy", "electron", "quantum"] chunkB.text = 1 ∧
    kwMatchCount ["energy", "electron", "quantum"] chunkC.text = 2 ∧
    chunkA.text.length = 600 ∧ chunkB.text.length = 1800 ∧
    chunkC.text.length = 100 ∧
    rankKeywordDocs ["energy", "electron", "quantum"] [chunkA, chunkB, chunkC]
      = [chunkA, chunkC, chunkB] ∧
    kwMatchCount ["energy", "electron"] chunkD.text = 1 ∧
    kwMatchCount ["energy", "electron"] chunkE.text = 1 ∧
    chunkD.text.length = 100 ∧ chunkE.text.length = 600 ∧
    rankKeywordDocs ["energy", "electron"] [chunkD, chunkE] = [chunkE, chunkD] := by
  have hA : kwMatchCount ["energy", "electron", "quantum"] chunkA.text = 3 := by decide
  have hB : kwMatchCount ["energy", "electron", "quantum"] chunkB.text = 1 := by decide
  have hC : kwMatchCount ["energy", "electron", "quantum"] chunkC.text = 2 := by decide
  have hD : kwMatchCount ["energy", "electron"] chunkD.text = 1 := by decide
  have hE : kwMatchCount ["energy", "electron"] chunkE.text = 1 := by decide
  have hbD : bandScore chunkD.text = 0 := by decide
  have hbE : bandScore chunkE.text = 1 := by decide
  have hcmpBC : keywordCmp ["energy", "electron", "quantum"] chunkB chunkC = 1 := by
    simp [keywordCmp, hB, hC]
  have hcmpAC : keywordCmp ["energy", "electron", "quantum"] chunkA chunkC = -1 := by
    simp [keywordCmp, hA, hC]
  have hcmpDE : keywordCmp ["energy", "electron"] chunkD chunkE = 1 := by
    simp [keywordCmp, hD, hE, hbD, hbE]
  have hsort1 : rankKeywordDocs ["energy", "electron", "quantum"]
      [chunkA, chunkB, chunkC] = [chunkA, chunkC, chunkB] := by
    simp [rankKeywordDocs, sortCmp, insertCmp, hcmpBC, hcmpAC]
  have hsort2 : rankKeywordDocs ["energy", "electron"] [chunkD, chunkE]
      = [chunkE, chunkD] := by
    simp [rankKeywordDocs, sortCmp, insertCmp, hcmpDE]
  exact ⟨hA, hB, hC, by decide, by decide, by decide, hsort1, hD, hE,
    by decide, by decide, hsort2⟩
